import Mathlib

/-!
Shallow embedding of the provider-abstraction and conversation-orchestration
core of the `ai_backend` repository (Django app `end_call`), together with
proofs about the claims on that core.

Source files embedded:
  * `end_call/models.py`    — `UserAPIKey.get_api_key`, `ChatSession`, `ChatMessage`
  * `end_call/ai_clients.py` — `get_api_key_for_service`, the three client
    classes (`OpenAIClient`, `AnthropicClient`, `GoogleClient`) and their
    `format_messages` / `parse_response` methods
  * `end_call/views.py`      — `ChatSessionViewSet.add_message` (the turn
    orchestrator) together with the validation performed by
    `NewChatMessageSerializer` in `end_call/serializers.py`

Modelling conventions:
  * Python strings are Lean `String`; `str.strip()` is `pyStrip` (defined below
    on the underlying character list so that it evaluates structurally);
    `sep.join(xs)` is `pyJoin sep xs`.
  * Python `None` is `Option.none`; Python truthiness of an optional string is
    `s ≠ ""` on the `some` case.
  * JSON values returned by `response.json()` are the inductive `Json` below.
  * Raised-and-propagated exceptions are the `Except.error` channel; exceptions
    that the source catches and converts are modelled exactly at the catch
    site.
  * Database rows are plain Lean structures; the message store of one chat
    session is a list in ascending `timestamp` order, to which the orchestrator
    appends.
-/

/-- Message roles. `ChatMessage.ROLE_CHOICES` in `end_call/models.py` is the
closed set system / user / assistant. -/
inductive Role where
  | system
  | user
  | assistant
deriving DecidableEq, BEq

/-- One `ChatMessage` row as the formatters and the orchestrator see it:
a role and free-text content. The `timestamp` ordering is represented by the
position in the history list. -/
structure Message where
  role : Role
  content : String
deriving DecidableEq, BEq

/-- Python `str.isspace`-style character test used by `str.strip()`. The
contents appearing in this development are ASCII, where this agrees with
Python. -/
def pySpace (c : Char) : Bool :=
  c.isWhitespace

/-- Python `s.strip()`: remove leading and trailing whitespace. Defined on the
character list so it reduces by structural recursion. -/
def pyStrip (s : String) : String :=
  String.mk (((s.data.dropWhile pySpace).reverse.dropWhile pySpace).reverse)

/-- Python `sep.join(xs)`. -/
def pyJoin (sep : String) : List String → String
  | [] => ""
  | x :: xs => xs.foldl (fun acc y => acc ++ sep ++ y) x

/-! ## Credential Resolver
`UserAPIKey.get_api_key` (end_call/models.py, lines 52-62) and
`get_api_key_for_service` (end_call/ai_clients.py, lines 11-39). -/

/-- The state of one stored `UserAPIKey.encrypted_api_key` blob, as the Fernet
decryption oracle sees it: an empty blob, a blob that decrypts to a given
plaintext, or a blob whose decryption raises (key rotation, corruption). -/
inductive StoredKey where
  | emptyBlob
  | decryptsTo (secret : String)
  | corrupt
deriving DecidableEq, BEq

/-- Embeds `UserAPIKey.get_api_key`: an empty blob returns `None`; a
successful decryption returns the plaintext; a decryption exception is caught
(`except Exception`) and downgraded to `None`. -/
def UserAPIKey.get_api_key : StoredKey → Option String
  | .emptyBlob => none
  | .decryptsTo secret => some secret
  | .corrupt => none

/-- The system-key half of the resolver: `getattr(settings, NAME,
os.getenv(NAME))` gives `system_key : Option String`; the source returns it
only when truthy (`if system_key: return system_key`), else `None`. -/
def systemFallback : Option String → Option String
  | some s => if s != "" then some s else none
  | none => none

/-- Embeds `get_api_key_for_service(user, service_name)`. The database lookup
and the environment lookup are abstracted into the two arguments: the per-user
`UserAPIKey` row for (user, service) when one exists, and the configured
system key for the service. Step 1 tries the user key and uses it only when
the decrypted value is truthy; step 2 falls back to the system key; step 3
returns `None`. -/
def get_api_key_for_service (user_key_entry : Option StoredKey)
    (system_key : Option String) : Option String :=
  match user_key_entry with
  | some entry =>
    match UserAPIKey.get_api_key entry with
    | some decrypted_key =>
      if decrypted_key != "" then some decrypted_key
      else systemFallback system_key
    | none => systemFallback system_key
  | none => systemFallback system_key

/-! ## Turn Orchestrator
`ChatSessionViewSet.add_message` (end_call/views.py, lines 81-150) with the
inbound validation of `NewChatMessageSerializer` (end_call/serializers.py,
lines 100-102). -/

/-- The mutable state of one chat session that the turn touches: its ordered
message list and its `updated_at` timestamp (a `Nat` tick). -/
structure SessionState where
  messages : List Message
  updated_at : Nat
deriving DecidableEq, BEq

/-- Outcome of the AI step of a turn, i.e. of `get_ai_client` followed by
`client.get_completion(history)`. The step performs network I/O, so it is a
parameter of the orchestrator model:
  * `ok text` — `get_completion` returned (`None` or a string);
  * `valueError` — a `ValueError` escaped (missing key at client construction,
    unsupported service, provider-reported error, parse failure, empty
    payload);
  * `requestError` — a `requests.exceptions.RequestException` escaped
    (transport or HTTP failure);
  * `unexpected` — any other exception escaped. -/
inductive AIOutcome where
  | ok (text : Option String)
  | valueError (msg : String)
  | requestError (msg : String)
  | unexpected
deriving DecidableEq, BEq

/-- Whether the AI step failed (raised), as distinguished by the two `except`
clauses of `add_message`. -/
def AIOutcome.isFailure : AIOutcome → Bool
  | .ok _ => false
  | _ => true

/-- The HTTP response produced by one call of `add_message`:
  * `invalid` — 400, `serializer.is_valid(raise_exception=True)` rejected the
    body (blank content);
  * `completed` — 201 with the user and assistant messages;
  * `aiAbsent` — 200 with detail "AI did not return a response." and only the
    user message;
  * `failed503` — 503 with the formatted detail string;
  * `failed500` — 500 with a generic detail. -/
inductive TurnResult where
  | invalid
  | completed (user_message ai_message : Message)
  | aiAbsent (user_message : Message)
  | failed503 (detail : String)
  | failed500
deriving DecidableEq, BEq

/-- Whether a turn result is the `completed` (201) outcome. -/
def TurnResult.isCompleted : TurnResult → Bool
  | .completed _ _ => true
  | _ => false

/-- Embeds `ChatSessionViewSet.add_message` acting on one session.
`content` is the inbound request content; `ai` is the outcome of the AI step;
`now` is the value `timezone.now()` would produce during this turn.
Control flow of the source:
  1. `NewChatMessageSerializer` (`CharField(required=True, allow_blank=False)`
     with DRF default `trim_whitespace=True`) rejects content that is blank
     after stripping, before anything is persisted, and otherwise yields the
     stripped content as `validated_data["content"]`.
  2. The user message is created unconditionally.
  3. On `ok` text that is truthy, the assistant message is created and
     `session.updated_at` is set to now and saved; on falsy text the turn
     returns 200 without persisting anything further; on a caught
     `ValueError` or `RequestException` it returns 503; on any other
     exception it returns 500. No path removes the user message. -/
def ChatSessionViewSet.add_message (st : SessionState) (content : String)
    (ai : AIOutcome) (now : Nat) : TurnResult × SessionState :=
  if pyStrip content = "" then
    (.invalid, st)
  else
    let user_message : Message := ⟨.user, pyStrip content⟩
    let st1 : SessionState := { st with messages := st.messages ++ [user_message] }
    match ai with
    | .ok text =>
      match text with
      | some s =>
        if s != "" then
          let ai_message : Message := ⟨.assistant, s⟩
          (.completed user_message ai_message,
            { st1 with messages := st1.messages ++ [ai_message], updated_at := now })
        else
          (.aiAbsent user_message, st1)
      | none => (.aiAbsent user_message, st1)
    | .valueError m =>
      (.failed503 ("Failed to get response from AI service: " ++ m), st1)
    | .requestError m =>
      (.failed503 ("Failed to get response from AI service: " ++ m), st1)
    | .unexpected => (.failed500, st1)

/-! ## Theorems for claims C1 to C5 -/

/-- C1. For every turn in which the user message content is non-empty (it
survives the serializer's strip) and the AI step fails with any of the caught
exception classes, the session messages after the turn are exactly the
messages before plus the persisted user message: the user message remains in
the store and no assistant message is added by that turn. -/
theorem user_message_survives_ai_failure (st : SessionState) (content : String)
    (ai : AIOutcome) (now : Nat)
    (hc : pyStrip content ≠ "")
    (hf : ai.isFailure = true) :
    ((ChatSessionViewSet.add_message st content ai now).2).messages
      = st.messages ++ [⟨Role.user, pyStrip content⟩] := by
  unfold ChatSessionViewSet.add_message
  rw [if_neg hc]
  cases ai with
  | ok text => simp [AIOutcome.isFailure] at hf
  | valueError m => rfl
  | requestError m => rfl
  | unexpected => rfl

/-- Witness for C1 at a concrete failed turn. -/
theorem user_message_survives_ai_failure_witness :
    ((ChatSessionViewSet.add_message ⟨[], 0⟩ "hello" AIOutcome.unexpected 1).2).messages
      = [] ++ [⟨Role.user, pyStrip "hello"⟩] :=
  user_message_survives_ai_failure ⟨[], 0⟩ "hello" AIOutcome.unexpected 1
    (by decide) rfl

/-- C2. A turn whose inbound content is empty is rejected by the serializer
with a validation error (HTTP 400) before any message is persisted: the
session state is returned unchanged. -/
theorem empty_content_rejected_before_persistence (st : SessionState)
    (ai : AIOutcome) (now : Nat) :
    ChatSessionViewSet.add_message st "" ai now = (TurnResult.invalid, st) :=
  rfl

/-- C3. If a per-user credential exists for (user, provider) and decrypts
successfully to a non-empty secret, the resolver returns that secret, for
every configuration of the system credential. -/
theorem user_key_preferred_over_system (secret : String)
    (system_key : Option String) (hs : secret ≠ "") :
    get_api_key_for_service (some (StoredKey.decryptsTo secret)) system_key
      = some secret := by
  unfold get_api_key_for_service UserAPIKey.get_api_key
  simp [hs]

/-- Witness for C3 with both a user secret and a system key configured. -/
theorem user_key_preferred_over_system_witness :
    get_api_key_for_service (some (StoredKey.decryptsTo "sk-user"))
      (some "sk-system") = some "sk-user" :=
  user_key_preferred_over_system "sk-user" (some "sk-system") (by decide)

/-- C4. When the per-user credential exists but its decryption raises, the
resolver behaves exactly as if no per-user credential existed: the exception
is swallowed inside `UserAPIKey.get_api_key`, and the result is the truthy
system credential when configured and absent otherwise. (The resolver is a
total function into `Option String`; no exception channel exists in its
type, matching the source, where every decryption exception is caught.) -/
theorem corrupt_user_key_falls_back (system_key : Option String) :
    get_api_key_for_service (some StoredKey.corrupt) system_key
        = get_api_key_for_service none system_key
      ∧ get_api_key_for_service (some StoredKey.corrupt) system_key
        = systemFallback system_key :=
  ⟨rfl, rfl⟩

/-- C5 counterexample. The claim states that after every turn that appended at
least one message the update timestamp is later than before. Concrete turn:
state with `updated_at = 5`, content "hello", AI step returns `None`
(`aiAbsent` path), current time 9. The turn appends one message (the user
message) yet leaves `updated_at` at 5, not later. -/
theorem updated_at_stale_after_absent_turn :
    ((ChatSessionViewSet.add_message ⟨[], 5⟩ "hello" (AIOutcome.ok none) 9).2).messages.length
        = ([] : List Message).length + 1
      ∧ ¬ 5 < ((ChatSessionViewSet.add_message ⟨[], 5⟩ "hello" (AIOutcome.ok none) 9).2).updated_at := by
  constructor
  · rfl
  · decide

/-- C5 amended. The conversation's `updated_at` is refreshed (set to the
current time) exactly on turns whose outcome is `completed`, i.e. turns that
persisted an assistant message; every other turn — including turns that
appended only the user message (AI absent or AI failure) — leaves `updated_at`
unchanged. -/
theorem updated_at_refreshed_iff_completed (st : SessionState) (content : String)
    (ai : AIOutcome) (now : Nat) :
    ((ChatSessionViewSet.add_message st content ai now).2).updated_at
      = (if ((ChatSessionViewSet.add_message st content ai now).1).isCompleted
         then now else st.updated_at) := by
  unfold ChatSessionViewSet.add_message
  by_cases hc : pyStrip content = ""
  · simp [hc, TurnResult.isCompleted]
  · rw [if_neg hc]
    cases ai with
    | ok text =>
      cases text with
      | none => rfl
      | some s =>
        by_cases hs : s = ""
        · simp [hs, TurnResult.isCompleted]
        · simp [hs, TurnResult.isCompleted]
    | valueError m => rfl
    | requestError m => rfl
    | unexpected => rfl

/-! ## JSON model and provider response parsing
`OpenAIClient.parse_response` (end_call/ai_clients.py, lines 123-139),
`AnthropicClient.parse_response` (lines 196-214) and
`GoogleClient.parse_response` (lines 301-340). -/

/-- JSON values as produced by `response.json()`. Booleans and floats do not
occur in the parsed paths of the source and are omitted. -/
inductive Json where
  | null
  | str (s : String)
  | num (n : Int)
  | arr (items : List Json)
  | obj (fields : List (String × Json))

/-- Python dictionary lookup `d[k]` or `d.get(k)` on an object; `none` for a
missing key or a non-object. (In Python a missing key raises `KeyError` and a
non-dict subscript raises `TypeError`; both are mapped to `none` here and the
callers below turn `none` into the caught-exception path of the source.) -/
def Json.getField? : Json → String → Option Json
  | .obj fields, k => (fields.find? (fun p => p.1 == k)).map (fun p => p.2)
  | _, _ => none

/-- Python `d.get(k, default)` on a value already known to be an object. -/
def Json.getD (j : Json) (k : String) (default : Json) : Json :=
  (j.getField? k).getD default

/-- Python list indexing `l[i]`; `none` for out-of-range (`IndexError`) or a
non-array (`TypeError`), both caught by the source parsers. (Python string
subscripts, which no claim exercises, are not modelled.) -/
def Json.index? : Json → Nat → Option Json
  | .arr items, i => items.get? i
  | _, _ => none

/-- Python truthiness of a JSON value. -/
def Json.pyTruthy : Json → Bool
  | .null => false
  | .str s => s != ""
  | .num n => n != 0
  | .arr items => !items.isEmpty
  | .obj fields => !fields.isEmpty

/-- Python equality of a JSON value with a string literal. -/
def Json.isStr : Json → String → Bool
  | .str s, t => s == t
  | _, _ => false

/-- Whether a JSON value is `None`. -/
def Json.isNull : Json → Bool
  | .null => true
  | _ => false

/-- Errors raised by the `parse_response` methods:
  * `apiError provider details` — `ValueError` raised for a provider-reported
    error payload (`error` field for OpenAI, `type == "error"` for
    Anthropic); `details` is the error object the message is drawn from;
  * `safetyBlock ratings` — the Google `ValueError` for
    `finishReason == "SAFETY"`;
  * `noCandidates errorObj promptFeedback` — the Google `ValueError` for a
    response without truthy `candidates`;
  * `parseFailure provider` — the `ValueError("Failed to parse response…")`
    re-raised after catching `KeyError` / `IndexError` / `TypeError`;
  * `attributeError` — an `AttributeError` that the source does NOT catch
    (calling a dict method on a non-dict, or `.strip()` on a non-string); it
    would escape `parse_response` as an unexpected exception. -/
inductive ParseErr where
  | apiError (provider : String) (details : Json)
  | safetyBlock (ratings : Json)
  | noCandidates (errorObj : Json) (promptFeedback : Json)
  | parseFailure (provider : String)
  | attributeError

/-- Python `content.strip() if content else None` where `content` is a JSON
value: a string is stripped (empty string is falsy and yields `None`); a falsy
non-string yields `None`; a truthy non-string would raise `AttributeError`. -/
def pyStripIfTruthy : Json → Except ParseErr (Option String)
  | .str s => .ok (if s = "" then none else some (pyStrip s))
  | v => if v.pyTruthy then .error .attributeError else .ok none

/-- Embeds `OpenAIClient.parse_response`. If the body has an `error` field, a
`ValueError` with the provider message is raised (composing the message calls
`.get` on the error value, so a non-dict error value raises
`AttributeError`). Otherwise `choices[0].message.content` is extracted —
`KeyError` / `IndexError` / `TypeError` along the way are caught and
re-raised as the parse failure `ValueError` — and the result is
`content.strip() if content else None`. -/
def OpenAIClient.parse_response (response_data : Json) :
    Except ParseErr (Option String) :=
  match response_data.getField? "error" with
  | some details =>
    match details with
    | .obj fields => .error (.apiError "openai" (.obj fields))
    | _ => .error .attributeError
  | none =>
    match ((response_data.getField? "choices").bind (fun c => c.index? 0)
            |>.bind (fun c => c.getField? "message")
            |>.bind (fun m => m.getField? "content")) with
    | some content => pyStripIfTruthy content
    | none => .error (.parseFailure "openai")

/-- Embeds `AnthropicClient.parse_response`. A non-dict body raises
`AttributeError` at `response_data.get("type")`. A `type == "error"` body
raises the provider `ValueError` (whose message composition calls `.get` on
`response_data.get("error", {})`, raising `AttributeError` when that value is
not a dict). Otherwise `content[0]` is taken (failures caught and re-raised
as the parse failure); a `text` block returns its stripped text (a non-string
`text` would raise `AttributeError` at `.strip()`); any other block type
returns `None`. -/
def AnthropicClient.parse_response (response_data : Json) :
    Except ParseErr (Option String) :=
  match response_data with
  | .obj _ =>
    if (response_data.getD "type" .null).isStr "error" then
      match response_data.getD "error" (.obj []) with
      | .obj fields => .error (.apiError "anthropic" (.obj fields))
      | _ => .error .attributeError
    else
      match (response_data.getField? "content").bind (fun c => c.index? 0) with
      | none => .error (.parseFailure "anthropic")
      | some content_block =>
        match content_block.getField? "type" with
        | none => .error (.parseFailure "anthropic")
        | some block_type =>
          if block_type.isStr "text" then
            match content_block.getField? "text" with
            | some (.str s) => .ok (some (pyStrip s))
            | some _ => .error .attributeError
            | none => .error (.parseFailure "anthropic")
          else
            .ok none
  | _ => .error .attributeError

/-- Python `[part["text"] for part in parts if "text" in part]` followed by
`"\n".join(...)`: collects the `text` field of each object part that has one.
A non-string `text` value makes the join raise `TypeError` (caught by the
source); a non-object part raises `TypeError` at the membership test (also
caught). Both are the `error` case here. -/
def collectTextList : List Json → Except Unit (List String)
  | [] => .ok []
  | part :: rest =>
    match part with
    | .obj _ =>
      match part.getField? "text" with
      | some (.str s) => (collectTextList rest).map (fun ts => s :: ts)
      | some _ => .error ()
      | none => collectTextList rest
    | _ => .error ()

/-- Embeds `GoogleClient.parse_response`. A non-dict body raises
`AttributeError` at `response_data.get("candidates")`. Without truthy
candidates, a `ValueError` is raised whose message is composed from
`response_data.get("error", {})` and, when truthy, `promptFeedback` (each
`.get` on a non-dict raising `AttributeError`). With candidates,
`candidates[0]` is taken; a finish reason outside STOP / MAX_TOKENS / None
that equals SAFETY raises the safety `ValueError` with the candidate's
ratings; then all `text` parts of `candidate.content.parts` are newline-joined
and the result is `full_text.strip() if full_text else None`. `KeyError` /
`IndexError` / `TypeError` along the way are caught and re-raised as the
parse failure `ValueError`. -/
def GoogleClient.parse_response (response_data : Json) :
    Except ParseErr (Option String) :=
  match response_data with
  | .obj _ =>
    let candidates := response_data.getD "candidates" .null
    if !candidates.pyTruthy then
      match response_data.getD "error" (.obj []) with
      | .obj efields =>
        let prompt_feedback := response_data.getD "promptFeedback" .null
        if prompt_feedback.pyTruthy then
          match prompt_feedback with
          | .obj pfields =>
            .error (.noCandidates (.obj efields) (.obj pfields))
          | _ => .error .attributeError
        else
          .error (.noCandidates (.obj efields) .null)
      | _ => .error .attributeError
    else
      match candidates.index? 0 with
      | none => .error (.parseFailure "google")
      | some candidate =>
        match candidate with
        | .obj _ =>
          let finish_reason := candidate.getD "finishReason" .null
          if !(finish_reason.isStr "STOP" || finish_reason.isStr "MAX_TOKENS"
                || finish_reason.isNull)
              && finish_reason.isStr "SAFETY" then
            .error (.safetyBlock (candidate.getD "safetyRatings" (.arr [])))
          else
            match candidate.getField? "content" with
            | none => .error (.parseFailure "google")
            | some content =>
              match content with
              | .obj _ =>
                match collectTextList
                    (match content.getD "parts" (.arr []) with
                     | .arr parts => parts
                     | _ => []) with
                | .error _ => .error (.parseFailure "google")
                | .ok text_parts =>
                  let full_text := pyJoin "\n" text_parts
                  .ok (if full_text = "" then none else some (pyStrip full_text))
              | _ => .error .attributeError
        | _ => .error .attributeError
  | _ => .error .attributeError

/-! ## Canned responses and theorems for claims C8 and C9 -/

/-- A well-formed Provider A (OpenAI) response carrying a single message with
raw content `s`. -/
def openaiEnvelope (s : String) : Json :=
  .obj [("choices", .arr [.obj [("message", .obj [("content", .str s)])]])]

/-- A well-formed Provider B (Anthropic) response carrying a single text block
with raw text `s`. -/
def anthropicEnvelope (s : String) : Json :=
  .obj [("content", .arr [.obj [("type", .str "text"), ("text", .str s)]])]

/-- A well-formed Provider C (Google) response carrying a single candidate
with one text part with raw text `s`. -/
def googleEnvelope (s : String) : Json :=
  .obj [("candidates", .arr [.obj [("content",
    .obj [("parts", .arr [.obj [("text", .str s)]])])]])]

/-- A Provider C (Google) response whose first candidate has
`finishReason: "SAFETY"`. -/
def googleSafetyResponse : Json :=
  .obj [("candidates", .arr [.obj [("finishReason", .str "SAFETY")]])]

/-- C8. Feeding the canned Provider A response
`{"choices":[{"message":{"content":"Hi there"}}]}` through
`OpenAIClient.parse_response` yields exactly the text "Hi there", and feeding
a Provider C response whose first candidate has `finishReason: "SAFETY"`
through `GoogleClient.parse_response` raises the safety-block error (with the
candidate's ratings, defaulting to the empty list) and returns no text. -/
theorem parse_round_trip_canned :
    OpenAIClient.parse_response (openaiEnvelope "Hi there")
        = .ok (some "Hi there")
      ∧ GoogleClient.parse_response googleSafetyResponse
        = .error (.safetyBlock (.arr [])) :=
  ⟨rfl, rfl⟩

/-- C9 counterexample. The claim states that whenever the extracted text is
empty after trimming, the parse result is absent rather than an empty string.
Concrete input: the well-formed Provider A response whose raw content is two
spaces. The extracted text is empty after trimming, yet `parse_response`
returns the empty string, not the absent value. -/
theorem whitespace_content_yields_empty_string :
    OpenAIClient.parse_response (openaiEnvelope "  ") = .ok (some "")
      ∧ OpenAIClient.parse_response (openaiEnvelope "  ")
        ≠ .ok (none : Option String) := by
  have h1 : OpenAIClient.parse_response (openaiEnvelope "  ") = .ok (some "") := rfl
  refine ⟨h1, ?_⟩
  rw [h1]
  intro h
  injection h with h2
  exact Option.noConfusion h2

/-- C9 amended. On a well-formed single-text response carrying raw content
`s`, each parse step returns `s` stripped of leading and trailing whitespace;
the result is absent exactly when the raw content was empty BEFORE trimming
for Providers A and C, and is never absent for a Provider B text block. In
particular a non-empty whitespace-only raw content yields the empty string,
not the absent value (callers rely on Python falsiness to treat the two
alike). -/
theorem parse_trims_and_empty_before_trim_is_absent (s : String) :
    OpenAIClient.parse_response (openaiEnvelope s)
        = .ok (if s = "" then none else some (pyStrip s))
      ∧ AnthropicClient.parse_response (anthropicEnvelope s)
        = .ok (some (pyStrip s))
      ∧ GoogleClient.parse_response (googleEnvelope s)
        = .ok (if s = "" then none else some (pyStrip s)) :=
  ⟨rfl, rfl, rfl⟩

/-! ## Anthropic message formatting
`AnthropicClient.format_messages` (end_call/ai_clients.py, lines 145-164). -/

/-- One `{"role": ..., "content": ...}` entry of a provider request body. -/
structure RoleText where
  role : String
  content : String
deriving DecidableEq, BEq

/-- The Anthropic request body: the main message list and the optional
separated system prompt. -/
structure AnthropicRequest where
  messages : List RoleText
  system : Option String
deriving DecidableEq, BEq

/-- The string the source emits for each role when building request entries. -/
def roleString : Role → String
  | .system => "system"
  | .user => "user"
  | .assistant => "assistant"

/-- One iteration of the `for msg in messages_queryset` loop of
`AnthropicClient.format_messages`: a system message is skipped after filling
`system_prompt` if it is still `None`; user and assistant messages are
appended to the main list. -/
def anthStep (acc : List RoleText × Option String) (msg : Message) :
    List RoleText × Option String :=
  match msg.role with
  | .system =>
    (acc.1, match acc.2 with
            | none => some msg.content
            | some p => some p)
  | .user => (acc.1 ++ [⟨"user", msg.content⟩], acc.2)
  | .assistant => (acc.1 ++ [⟨"assistant", msg.content⟩], acc.2)

/-- Embeds `AnthropicClient.format_messages`. The returned pair is the request
body `{"messages": formatted, "system": system_prompt}` together with a
Boolean observing whether the source printed the warning
"Anthropic requires the first message to be from user"
(`if not formatted or formatted[0]["role"] != "user"`). The commented-out
`raise` in the source is dead code: the method always returns the body. -/
def AnthropicClient.format_messages (messages : List Message) :
    AnthropicRequest × Bool :=
  let acc := messages.foldl anthStep ([], none)
  (⟨acc.1, acc.2⟩,
    match acc.1 with
    | [] => true
    | first :: _ => first.role != "user")

/-- The main list built by the Anthropic fold is the non-system messages of
the history, in order, with their role names. -/
theorem anthStep_foldl_formatted (messages : List Message)
    (acc : List RoleText) (sysp : Option String) :
    (messages.foldl anthStep (acc, sysp)).1
      = acc ++ (messages.filter (fun m => m.role != Role.system)).map
          (fun m => RoleText.mk (roleString m.role) m.content) := by
  induction messages generalizing acc sysp with
  | nil => simp
  | cons m rest ih =>
    obtain ⟨r, c⟩ := m
    cases r with
    | system =>
      simp only [List.foldl_cons, anthStep]
      rw [ih acc _]
      rfl
    | user =>
      simp only [List.foldl_cons, anthStep]
      rw [ih (acc ++ [RoleText.mk "user" c]) sysp, List.append_assoc]
      rfl
    | assistant =>
      simp only [List.foldl_cons, anthStep]
      rw [ih (acc ++ [RoleText.mk "assistant" c]) sysp, List.append_assoc]
      rfl

/-- C7. For every history whose first non-system message is not user-role, or
which has no non-system message at all, `AnthropicClient.format_messages`
still returns a request body — the method is total, the `raise` being
commented out in the source — and the anomaly warning is flagged. -/
theorem anthropic_flags_non_user_start (messages : List Message)
    (h : ((messages.filter (fun m => m.role != Role.system)).head?.all
          (fun m => m.role != Role.user)) = true) :
    (AnthropicClient.format_messages messages).2 = true := by
  have key : (AnthropicClient.format_messages messages).2
      = (match (messages.foldl anthStep ([], none)).1 with
         | [] => true
         | first :: _ => first.role != "user") := rfl
  rw [key]
  have hf := anthStep_foldl_formatted messages [] none
  rw [List.nil_append] at hf
  rw [hf]
  cases hfe : messages.filter (fun m => m.role != Role.system) with
  | nil => rfl
  | cons m rest =>
    have hmem : m ∈ messages.filter (fun m => m.role != Role.system) := by
      rw [hfe]; exact List.mem_cons_self m rest
    have hns : (m.role != Role.system) = true := (List.mem_filter.mp hmem).2
    rw [hfe] at h
    have h2 : (m.role != Role.user) = true := h
    simp only [List.map_cons]
    show (roleString m.role != "user") = true
    cases hr : m.role with
    | system => rw [hr] at hns; exact absurd hns (by decide)
    | user => rw [hr] at h2; exact absurd h2 (by decide)
    | assistant => decide

/-- Witness for C7 at a history that starts with an assistant message. -/
theorem anthropic_flags_non_user_start_witness :
    (AnthropicClient.format_messages [⟨Role.assistant, "hi"⟩]).2 = true :=
  anthropic_flags_non_user_start [⟨Role.assistant, "hi"⟩] (by decide)

/-! ## Google message formatting
`GoogleClient.format_messages` (end_call/ai_clients.py, lines 231-271). -/

/-- One entry of the Google `contents` list: a role ("user" or "model") and
the `parts` list, each part being one `{"text": ...}` object. -/
structure GContent where
  role : String
  parts : List String
deriving DecidableEq, BEq

/-- The loop state of `GoogleClient.format_messages`: the `contents` built so
far and the `last_role` variable (initially `None`). -/
structure GState where
  contents : List GContent
  last_role : Option String
deriving DecidableEq, BEq

/-- The Google request body `{"contents": contents}`. -/
structure GRequest where
  contents : List GContent
deriving DecidableEq, BEq

/-- Python `contents[-1]["parts"][0]["text"] += "\n" + extra`: appends to the
text of the first part. Every turn the loop emits has exactly one part, so the
list is never empty at this point (an empty list would raise `IndexError` in
the source; the `[]` case below is unreachable). -/
def mergeLastText : List String → String → List String
  | [], _ => []
  | t :: rest, extra => (t ++ "\n" ++ extra) :: rest

/-- One iteration of the `for msg in messages_queryset` loop of
`GoogleClient.format_messages`:
  * a user message starts a new "user" turn and sets `last_role`;
  * an assistant message directly after a user message starts a new "model"
    turn and sets `last_role`;
  * an assistant message NOT after a user message is merged into the last
    turn when that turn is a "model" turn (newline-joined text; `last_role`
    is not touched by this branch), and otherwise skipped with a warning;
  * a system message is ignored with a warning (neither `contents` nor
    `last_role` changes). -/
def googleStep (st : GState) (msg : Message) : GState :=
  match msg.role with
  | .user => ⟨st.contents ++ [⟨"user", [msg.content]⟩], some "user"⟩
  | .assistant =>
    if st.last_role = some "user" then
      ⟨st.contents ++ [⟨"model", [msg.content]⟩], some "model"⟩
    else
      match st.contents.getLast? with
      | some last =>
        if last.role = "model" then
          ⟨st.contents.dropLast ++ [⟨last.role, mergeLastText last.parts msg.content⟩],
            st.last_role⟩
        else st
      | none => st
  | .system => st

/-- The loop of `GoogleClient.format_messages` run over a history from the
initial state (`contents = []`, `last_role = None`). -/
def googleRun (messages : List Message) : GState :=
  messages.foldl googleStep ⟨[], none⟩

/-- Embeds `GoogleClient.format_messages`: runs the loop and returns
`{"contents": contents}`. The trailing check that the last turn is not a
"model" turn only prints a warning and does not change the result. -/
def GoogleClient.format_messages (messages : List Message) : GRequest :=
  ⟨(googleRun messages).contents⟩

/-- Running the Google loop over three trailing messages user / assistant /
assistant from any state produces one "user" turn followed by ONE "model"
turn whose single part is the two assistant contents joined by a newline. -/
theorem googleStep_merge (C : List GContent) (parts : List String)
    (lr : Option String) (hlr : lr ≠ some "user") (b : String) :
    googleStep ⟨C ++ [⟨"model", parts⟩], lr⟩ ⟨Role.assistant, b⟩
      = ⟨C ++ [⟨"model", mergeLastText parts b⟩], lr⟩ := by
  simp only [googleStep]
  rw [if_neg hlr]
  simp only [List.getLast?_concat]
  simp [List.dropLast_concat]

theorem googleStep_user_assistant_assistant (st : GState) (u a b : String) :
    [⟨Role.user, u⟩, ⟨Role.assistant, a⟩, ⟨Role.assistant, b⟩].foldl googleStep st
      = ⟨st.contents ++ [⟨"user", [u]⟩, ⟨"model", [a ++ "\n" ++ b]⟩], some "model"⟩ := by
  simp only [List.foldl_cons, List.foldl_nil]
  have h1 : googleStep st ⟨Role.user, u⟩
      = ⟨st.contents ++ [⟨"user", [u]⟩], some "user"⟩ := rfl
  rw [h1]
  have h2 : googleStep (⟨st.contents ++ [⟨"user", [u]⟩], some "user"⟩ : GState)
        ⟨Role.assistant, a⟩
      = ⟨(st.contents ++ [⟨"user", [u]⟩]) ++ [⟨"model", [a]⟩], some "model"⟩ := rfl
  rw [h2]
  rw [googleStep_merge (st.contents ++ [GContent.mk "user" [u]]) [a] (some "model")
    (by decide) b]
  rw [List.append_assoc]
  rfl

/-- C6. Whenever the history ends with a user message followed by two
consecutive assistant messages, the Google formatter emits for the pair a
single "model" turn whose text is the two assistant contents joined by a
newline — the output is the output for the history up to and including the
user message, extended by exactly that one merged turn, not by two separate
"model" turns. -/
theorem google_merges_consecutive_assistants (pre : List Message) (u a b : String) :
    (GoogleClient.format_messages
        (pre ++ [⟨Role.user, u⟩, ⟨Role.assistant, a⟩, ⟨Role.assistant, b⟩])).contents
      = (GoogleClient.format_messages (pre ++ [⟨Role.user, u⟩])).contents
        ++ [⟨"model", [a ++ "\n" ++ b]⟩] := by
  unfold GoogleClient.format_messages googleRun
  rw [List.foldl_append, List.foldl_append]
  rw [googleStep_user_assistant_assistant]
  simp [googleStep, List.append_assoc]

/-- Running the Google loop over an assistant message from a state in which
`last_role` is not "user" and the last emitted turn (if any) is not a "model"
turn leaves the state unchanged: the message is skipped. -/
theorem googleStep_skips_assistant (st : GState) (a : String)
    (h1 : st.last_role ≠ some "user")
    (h2 : ∀ c, st.contents.getLast? = some c → c.role ≠ "model") :
    googleStep st ⟨Role.assistant, a⟩ = st := by
  show (if st.last_role = some "user" then _ else _) = st
  rw [if_neg h1]
  cases hL : st.contents.getLast? with
  | none => rfl
  | some last => simp only [if_neg (h2 last hL)]

/-- C10. An assistant message that does not follow a user message and whose
insertion point has no preceding "model" turn — for example, a history that
begins with an assistant message — is skipped entirely by the Google
formatter: the request body equals the one for the history without that
message, so its content appears nowhere in the output. -/
theorem google_skips_orphan_assistant (pre suf : List Message) (a : String)
    (h1 : (googleRun pre).last_role ≠ some "user")
    (h2 : ∀ c, (googleRun pre).contents.getLast? = some c → c.role ≠ "model") :
    GoogleClient.format_messages (pre ++ ⟨Role.assistant, a⟩ :: suf)
      = GoogleClient.format_messages (pre ++ suf) := by
  unfold GoogleClient.format_messages googleRun
  rw [List.foldl_append, List.foldl_append, List.foldl_cons]
  rw [googleStep_skips_assistant (List.foldl googleStep ⟨[], none⟩ pre) a h1 h2]

/-- Witness for C10: a history consisting of a single assistant message
formats to the same (empty) request body as the empty history. -/
theorem google_skips_orphan_assistant_witness :
    GoogleClient.format_messages ([] ++ ⟨Role.assistant, "hello"⟩ :: [])
      = GoogleClient.format_messages ([] ++ []) :=
  google_skips_orphan_assistant [] [] "hello" (by decide)
    (fun c h => Option.noConfusion h)
